import Mathlib

/-!
Shallow embedding of the camera resource arbiter / job orchestrator of
`app.py` (MouseEye timelapse server).

Python globals are collected in the `SysState` structure; every function
below is a direct translation of the correspondingly named Python function
(line numbers refer to `src/app.py`).  Wall-clock time, free disk space,
the existence of directories and the behaviour of the external programs
(`rpicam-still`, `ffmpeg`, `rpicam-vid`) are inputs supplied by the caller,
since they come from the environment.
-/

namespace MouseEye

/-- Encode-job status, the `status` field of an entry of `_jobs`. -/
inductive JobStatus where
  | queued
  | encoding
  | done
  | error
deriving DecidableEq, Repr

/-- One entry of the `_jobs` dict (app.py line 205): status, integer
progress, optional failure reason. -/
structure Job where
  status : JobStatus
  progress : Nat
  reason : Option String
deriving DecidableEq, Repr

/-- One value of the `_schedules` dict (app.py lines 2551-2557). -/
structure Sched where
  start_ts : Nat
  end_ts : Nat
  interval : Nat
  fps : Nat
  sess : String
  auto_encode : Bool
  created_ts : Nat
deriving DecidableEq, Repr

/-- The defaults used by `dict.get` in the action processor:
`interval` defaults to 10, `fps` to 24, `sess` to `""`, `auto_encode`
to falsy (app.py lines 514-516, 543-545). -/
def defaultSched : Sched :=
  { start_ts := 0, end_ts := 0, interval := 10, fps := 24,
    sess := "", auto_encode := false, created_ts := 0 }

/-- Payload of a `('start', payload)` action: either a manual start from the
`/start` route (app.py lines 810-812) or a scheduler start carrying a
schedule id (app.py line 481). -/
inductive StartPayload where
  | manual (interval : Nat) (name : String) (durationMin : Option Nat)
  | scheduled (sid : String)
deriving DecidableEq, Repr

/-- An element of the `_action_q` command queue. -/
inductive Intent where
  | start (p : StartPayload)
  | stop
deriving DecidableEq, Repr

/-- The mutable module-level state of app.py relevant to capture control,
encoding and scheduling.  `working` is the session the single encode worker
is currently processing (the worker's local `task` between `get()` and job
finalisation). -/
structure SysState where
  currentSession : Option String
  captureAlive : Bool
  activeScheduleId : Option String
  captureEndTs : Option Nat
  captureStartTs : Option Nat
  stopTimerArmed : Bool
  liveProcRunning : Bool
  jobs : List (String × Job)
  actionQ : List Intent
  encodeQ : List (String × Nat)
  schedules : List (String × Sched)
  working : Option String
deriving DecidableEq, Repr

/-- The state right after module import: no session, no jobs, no schedules
(app.py lines 201-219, 313-317). -/
def initState : SysState :=
  { currentSession := none, captureAlive := false, activeScheduleId := none,
    captureEndTs := none, captureStartTs := none, stopTimerArmed := false,
    liveProcRunning := false, jobs := [], actionQ := [], encodeQ := [],
    schedules := [], working := none }

/-- Python truthiness of an optional string: `None` and `""` are falsy. -/
def pyTruthy : Option String → Bool
  | none => false
  | some s => s != ""

/-- Whether a job counts as in-flight, i.e. `status in ("queued", "encoding")`. -/
def inFlight (j : Job) : Bool :=
  j.status == JobStatus.queued || j.status == JobStatus.encoding

/-- `_any_encoding_active` (app.py lines 358-359). -/
def anyEncodingActive (jobs : List (String × Job)) : Bool :=
  jobs.any fun p => inFlight p.2

/-- Number of jobs whose status is `queued` or `encoding`. -/
def inFlightCount (jobs : List (String × Job)) : Nat :=
  (jobs.filter fun p => inFlight p.2).length

/-- `_idle_now` (app.py lines 402-403): the capture thread is absent or dead,
and no encode job is queued or encoding.  Note it does not consult
`_current_session`. -/
def idleNow (s : SysState) : Bool :=
  !s.captureAlive && !anyEncodingActive s.jobs

/-- Characters kept by `_safe_name` (app.py line 354). -/
def isSafeChar (c : Char) : Bool :=
  c.isAlphanum || c == '-' || c == '_'

/-- `_safe_name` (app.py line 354). -/
def safeName (s : String) : String :=
  String.mk (s.data.filter isSafeChar)

/-- `_timestamped_session` (app.py lines 355-356); the strftime timestamp is
modelled by the numeric wall-clock second. -/
def timestampedSession (now : Nat) : String :=
  "session-" ++ toString now

/-- `_schedules.get sid`: first binding of `sid` in the schedules dict. -/
def schedGet (schedules : List (String × Sched)) (sid : String) : Option Sched :=
  (schedules.find? fun p => p.1 == sid).map fun p => p.2

/-- Python dict assignment `_jobs[sess] = j`: replace in place or append. -/
def setJob (jobs : List (String × Job)) (sess : String) (j : Job) :
    List (String × Job) :=
  match jobs with
  | [] => [(sess, j)]
  | (k, v) :: rest =>
      if k == sess then (k, j) :: rest else (k, v) :: setJob rest sess j

/-- `_jobs.get sess`. -/
def lookupJob (jobs : List (String × Job)) (sess : String) : Option Job :=
  (jobs.find? fun p => p.1 == sess).map fun p => p.2

/-- `stop_timelapse` (app.py lines 830-854): signal the stop event, cancel
the one-shot timer, join the capture thread, reset all capture state. -/
def stopTimelapse (s : SysState) : SysState :=
  { s with stopTimerArmed := false, captureAlive := false,
           currentSession := none, captureEndTs := none,
           captureStartTs := none }

/-- Lines 528-534 of the action processor: derive the session name, clear the
stop event, record the start time and launch the capture thread. -/
def startCapture (now : Nat) (s : SysState) (sessName : String) : SysState :=
  let nm := safeName (if sessName == "" then timestampedSession now else sessName)
  { s with currentSession := some nm, captureAlive := true,
           captureStartTs := some now }

/-- `finalizeJob` models lines 278-282 of `_encode_worker`: `done/100` only
when ffmpeg returned 0 and the output file exists, else `error/0`. -/
def finalizeJob (rc : Int) (outExists : Bool) : Job :=
  if rc == 0 && outExists then
    { status := JobStatus.done, progress := 100, reason := none }
  else
    { status := JobStatus.error, progress := 0, reason := none }

/-- Lines 283-284: an exception anywhere in the task body also yields
`error/0`; otherwise the result is `finalizeJob`. -/
def encodeTaskResult (exc : Bool) (rc : Int) (outExists : Bool) : Job :=
  if exc then { status := JobStatus.error, progress := 0, reason := none }
  else finalizeJob rc outExists

/-- The body of `_action_processor_thread`'s loop (app.py lines 502-547),
the single drainer of `_action_q`. -/
def processIntent (now : Nat) (s : SysState) (i : Intent) : SysState :=
  match i with
  | Intent.start payload =>
      if !(idleNow s) then s
      else
        let s0 := { s with liveProcRunning := false }
        match payload with
        | StartPayload.scheduled sid =>
            let sched := (schedGet s0.schedules sid).getD defaultSched
            let s1 := { s0 with activeScheduleId := some sid }
            startCapture now s1 sched.sess
        | StartPayload.manual _interval name dur =>
            let s1 := { s0 with activeScheduleId := none }
            let s2 :=
              match dur with
              | some d =>
                  { s1 with captureEndTs := some (now + d * 60),
                            stopTimerArmed := true }
              | none => s1
            startCapture now s2 name
  | Intent.stop =>
      let sessionToStop := s.currentSession
      let schedThatStopped :=
        if pyTruthy s.activeScheduleId then
          (s.activeScheduleId.getD "") |> schedGet s.schedules
        else none
      let s1 := { stopTimelapse s with activeScheduleId := none }
      match schedThatStopped with
      | some sched =>
          if sched.auto_encode && pyTruthy sessionToStop then
            { s1 with encodeQ :=
                s1.encodeQ ++ [(sessionToStop.getD "", sched.fps)] }
          else s1
      | none => s1

/-- The `/start` route (app.py lines 797-817): if idle, enqueue a start
intent built from the form fields; it performs no storage check. -/
def startRoute (s : SysState) (interval : Nat) (formName : String)
    (durHours durMinutes : Nat) : SysState :=
  if !(idleNow s) then s
  else
    let name := safeName formName
    let durationMin := durHours * 60 + durMinutes
    let dur := if durationMin > 0 then some durationMin else none
    { s with actionQ :=
        s.actionQ ++ [Intent.start (StartPayload.manual interval name dur)] }

/-- The `/stop` route (app.py lines 856-859): calls `stop_timelapse`
directly, without going through `_action_q`. -/
def stopRoute (s : SysState) : SysState :=
  stopTimelapse s

/-- The one-shot duration timer armed at line 524: its target is
`stop_timelapse` itself, called directly when the timer elapses. -/
def durationTimerFire (s : SysState) : SysState :=
  stopTimelapse s

/-- `_sched_fire_stop` (app.py lines 2444-2469). -/
def schedFireStop (s : SysState) (sessName : String) (fps : Nat)
    (autoEncode : Bool) : SysState :=
  if !(pyTruthy s.currentSession) then s
  else
    let sessionToStop := s.currentSession.getD ""
    let s1 := stopTimelapse s
    if autoEncode then
      let sessionToEncode := if sessionToStop != "" then sessionToStop else sessName
      if sessionToEncode != "" then
        { s1 with encodeQ := s1.encodeQ ++ [(sessionToEncode, fps)] }
      else s1
    else s1

/-- The schedule search of the scheduler's start logic (app.py lines
473-477): the first schedule with `start_ts <= now < end_ts`. -/
def findActiveSchedule (now : Nat) (schedules : List (String × Sched)) :
    Option (String × Sched) :=
  schedules.find? fun p => p.2.start_ts ≤ now && now < p.2.end_ts

/-- One wake-up of `_scheduler_thread` (app.py lines 457-486). -/
def schedulerTick (now : Nat) (s : SysState) : SysState :=
  if pyTruthy s.currentSession && pyTruthy s.activeScheduleId then
    match schedGet s.schedules (s.activeScheduleId.getD "") with
    | some sched =>
        if sched.end_ts ≤ now then
          { s with actionQ := s.actionQ ++ [Intent.stop] }
        else s
    | none => s
  else if idleNow s then
    match findActiveSchedule now s.schedules with
    | some (sid, _) =>
        { s with actionQ :=
            s.actionQ ++ [Intent.start (StartPayload.scheduled sid)] }
    | none => s
  else s

/-- `FPS_CHOICES` (app.py line 149). -/
def fpsChoices : List Nat := [10, 24, 30]

/-- `DEFAULT_FPS` (app.py line 150). -/
def defaultFps : Nat := 24

/-- `_enough_space` (app.py lines 2286-2288): free megabytes at least the
required amount. -/
def enoughSpace (freeMB requiredMB : Nat) : Bool :=
  requiredMB ≤ freeMB

/-- The `/encode/<sess>` route (app.py lines 1089-1108).  `sessDirExists`
and `freeMB` are the filesystem facts the route consults. -/
def encodeRoute (s : SysState) (sess : String) (fpsForm : Nat)
    (sessDirExists : Bool) (freeMB : Nat) : SysState :=
  if anyEncodingActive s.jobs then
    { s with jobs :=
        setJob s.jobs sess (Job.mk JobStatus.error 0 (some "busy")) }
  else
    let fps := if fpsChoices.contains fpsForm then fpsForm else defaultFps
    if !sessDirExists then s
    else if !(enoughSpace freeMB 300) then
      { s with jobs :=
          setJob s.jobs sess (Job.mk JobStatus.error 0 (some "low_disk")) }
    else
      { s with
          jobs := setJob s.jobs sess (Job.mk JobStatus.queued 0 none),
          encodeQ := s.encodeQ ++ [(sess, fps)] }

/-- The head of `_encode_worker`'s task body (app.py lines 228-243): pop the
next task; with zero frames record `error/0` and skip the encoder entirely,
otherwise publish `encoding/0` and invoke ffmpeg.  The returned boolean is
whether the external encoder is invoked for this task. -/
def workerBegin (s : SysState) (totalFrames : Nat) : SysState × Bool :=
  match s.working, s.encodeQ with
  | none, (sess, _fps) :: rest =>
      if totalFrames == 0 then
        ({ s with
             encodeQ := rest,
             jobs := setJob s.jobs sess (Job.mk JobStatus.error 0 none) },
         false)
      else
        ({ s with
             encodeQ := rest, working := some sess,
             jobs := setJob s.jobs sess (Job.mk JobStatus.encoding 0 none) },
         true)
  | _, _ => (s, s.working.isSome && false)

/-- The tail of `_encode_worker`'s task body (app.py lines 278-284): record
the final job status for the session being worked on. -/
def workerFinish (s : SysState) (exc : Bool) (rc : Int) (outExists : Bool) :
    SysState :=
  match s.working with
  | some sess =>
      { s with working := none,
               jobs := setJob s.jobs sess (encodeTaskResult exc rc outExists) }
  | none => s

/-- The `/schedule/arm` route's mutation (app.py lines 2551-2557): insert a
fresh schedule under a new id. -/
def schedArm (s : SysState) (sid : String) (sched : Sched) : SysState :=
  { s with schedules := s.schedules ++ [(sid, sched)] }

/-- The externally triggerable operations on the system state.  `drain` is
one iteration of the action processor on the head of `_action_q`; all other
operations are web handlers, timer callbacks or scheduler wake-ups. -/
inductive SysOp where
  | startRoute (interval : Nat) (name : String) (durHours durMinutes : Nat)
  | stopRoute
  | durationTimerFire
  | schedFireStop (sessName : String) (fps : Nat) (autoEncode : Bool)
  | schedulerTick
  | schedArm (sid : String) (sched : Sched)
  | encodeRoute (sess : String) (fps : Nat) (dirExists : Bool) (freeMB : Nat)
  | workerBegin (totalFrames : Nat)
  | workerFinish (exc : Bool) (rc : Int) (outExists : Bool)
  | drain
deriving DecidableEq, Repr

/-- Apply one operation at wall-clock time `now`. -/
def sysStep (now : Nat) (s : SysState) : SysOp → SysState
  | SysOp.startRoute i n h m => startRoute s i n h m
  | SysOp.stopRoute => stopRoute s
  | SysOp.durationTimerFire => durationTimerFire s
  | SysOp.schedFireStop n fps ae => schedFireStop s n fps ae
  | SysOp.schedulerTick => schedulerTick now s
  | SysOp.schedArm sid sched => schedArm s sid sched
  | SysOp.encodeRoute sess fps de free => encodeRoute s sess fps de free
  | SysOp.workerBegin tf => (workerBegin s tf).1
  | SysOp.workerFinish exc rc out => workerFinish s exc rc out
  | SysOp.drain =>
      match s.actionQ with
      | [] => s
      | i :: rest => processIntent now { s with actionQ := rest } i

/-- Run a list of timed operations in order. -/
def runOps (s : SysState) (ops : List (Nat × SysOp)) : SysState :=
  ops.foldl (fun st p => sysStep p.1 st p.2) s

/-! ### Progress parsing inside `_encode_worker` (app.py lines 265-276) -/

/-- Python `int(tok)` on a whitespace-free token: an optional sign followed
by decimal digits; anything else raises (and the worker's `except` swallows
the update). -/
def parseIntToken (tok : String) : Option Int :=
  let core : List Char → Option Nat := fun ds =>
    if ds ≠ [] ∧ ds.all Char.isDigit then
      some (ds.foldl (fun acc c => acc * 10 + (c.toNat - 48)) 0)
    else none
  match tok.data with
  | '-' :: rest => (core rest).map fun n => -(n : Int)
  | '+' :: rest => (core rest).map fun n => (n : Int)
  | ds => (core ds).map fun n => (n : Int)

/-- Python `str.split()` with no argument: split on whitespace runs,
dropping empty pieces. -/
def splitWs (s : String) : List String :=
  (s.split Char.isWhitespace).filter fun t => t != ""

/-- Lines 269-272: `line.split("frame=")[-1].strip().split()` and
`int(parts[0])`; `none` when `"frame="` is absent or parsing raises. -/
def frameNumOfLine (line : String) : Option Int :=
  let pieces := line.splitOn "frame="
  if pieces.length ≥ 2 then
    match splitWs (pieces.getLastD "").trim with
    | tok :: _ => parseIntToken tok
    | [] => none
  else none

/-- Lines 269-276: the progress value published after reading one line of
ffmpeg output.  Python computes `int((frame_num / max(1, total)) * 99)` with
float arithmetic and then clamps with `max(0, min(99, prog))`; the division
is modelled exactly over the integers (the clamp bounds the published value
either way). -/
def progressUpdate (totalFrames : Nat) (progress : Nat) (line : String) : Nat :=
  match frameNumOfLine line with
  | some frameNum =>
      let prog : Int := Int.tdiv (frameNum * 99) (max 1 totalFrames : Nat)
      (max 0 (min 99 prog)).toNat
  | none => progress

/-- Successive published progress values while reading `lines`. -/
def progressTraceAux (totalFrames p : Nat) : List String → List Nat
  | [] => []
  | line :: rest =>
      let q := progressUpdate totalFrames p line
      q :: progressTraceAux totalFrames q rest

/-- All progress values visible while the job is `encoding`: the initial 0
from `_jobs[sess] = {"status": "encoding", "progress": 0}` (line 243)
followed by one value per parsed output line. -/
def progressTrace (totalFrames : Nat) (lines : List String) : List Nat :=
  0 :: progressTraceAux totalFrames 0 lines

/-! ### Live view (`/live.mjpg`, app.py lines 207-214, 1231-1326) -/

/-- The live-view globals: `_last_live_spawn` and whether `LIVE_PROC` is a
running process.  `spawnCount` counts the `subprocess.Popen` calls made for
the camera-video program (a ghost counter used to state respawn claims). -/
structure LiveState where
  lastLiveSpawn : Nat
  procRunning : Bool
  spawnCount : Nat
deriving DecidableEq, Repr

/-- Outcome of a `/live.mjpg` request. -/
inductive LiveResult where
  | busy
  | noBinary
  | rateLimited
  | stream
deriving DecidableEq, Repr

/-- `_can_spawn_live` (app.py lines 208-214): refuse if the last spawn was
less than `period` ago, else record `now` and allow. -/
def canSpawnLive (now period last : Nat) : Bool × Nat :=
  if now - last < period then (false, last) else (true, now)

/-- The `/live.mjpg` handler (app.py lines 1231-1283) up to the streaming
response: reject with 503 Busy when not idle; 500 when no camera binary;
when no shared process is running, rate-limit (429) or spawn one. -/
def liveMjpg (sys : SysState) (binPresent : Bool) (now period : Nat)
    (live : LiveState) : LiveResult × LiveState :=
  if !(idleNow sys) then (LiveResult.busy, live)
  else if !binPresent then (LiveResult.noBinary, live)
  else if live.procRunning then (LiveResult.stream, live)
  else
    match canSpawnLive now period live.lastLiveSpawn with
    | (false, last2) => (LiveResult.rateLimited, { live with lastLiveSpawn := last2 })
    | (true, last2) =>
        (LiveResult.stream,
         { lastLiveSpawn := last2, procRunning := true,
           spawnCount := live.spawnCount + 1 })

/-- What the streaming generator observes at the head of each iteration of
its `while True` loop (app.py lines 1285-1315). -/
inductive LiveEvent where
  | frame
  | procExit
  | notIdle
deriving DecidableEq, Repr

/-- The generator loop of `/live.mjpg` (app.py lines 1285-1320): yield one
multipart part per frame; break as soon as idleness is lost or the process
has exited.  Returns (frames yielded, camera processes spawned by the
loop); the loop body contains no spawn, so the second component is built
only from the empty and break cases. -/
def genLoop : List LiveEvent → Nat × Nat
  | [] => (0, 0)
  | e :: rest =>
      match e with
      | LiveEvent.procExit => (0, 0)
      | LiveEvent.notIdle => (0, 0)
      | LiveEvent.frame =>
          let r := genLoop rest
          (r.1 + 1, r.2)

/-! ### Schedule persistence (app.py lines 431-451, 2517-2625) -/

/-- Contents of a file on disk: a completely written serialisation of a
schedules dict, or a torn (partially written, unparseable) one. -/
inductive FileContent where
  | complete (v : List (String × Sched))
  | torn
deriving DecidableEq, Repr

/-- The two paths touched by `_save_sched_state`: `schedule.json` and
`schedule.json.tmp` (`none` = the path does not exist). -/
structure FsState where
  schedFile : Option FileContent
  tmpFile : Option FileContent
deriving DecidableEq, Repr

/-- `_load_sched_state` (app.py lines 441-451): parse `schedule.json`; on a
complete record replace `_schedules` with it and return `True`, on a
missing or unreadable file leave `_schedules` untouched and return
`False`. -/
def loadSchedState (file : Option FileContent)
    (schedules : List (String × Sched)) : List (String × Sched) × Bool :=
  match file with
  | some (FileContent.complete v) => (v, true)
  | _ => (schedules, false)

/-- Every filesystem state observable while `_save_sched_state` (app.py
lines 431-439) writes `v`: opening and writing the tmp file (possibly
interrupted mid-write), completing the write with flush+fsync, then
atomically `os.replace`-ing it over `schedule.json`. -/
def saveSchedStates (fs : FsState) (v : List (String × Sched)) : List FsState :=
  [ fs,
    { fs with tmpFile := some FileContent.torn },
    { fs with tmpFile := some (FileContent.complete v) },
    { schedFile := some (FileContent.complete v), tmpFile := none } ]

/-- The schedule mutations performed by the web routes; each route performs
its mutation and then `_save_sched_state` under `_sched_lock`. -/
inductive SchedMutation where
  | arm (sid : String) (sched : Sched)
  | cancelId (sid : String)
  | cancelAll
  | deletePast (now : Nat)
deriving DecidableEq, Repr

/-- The effect of each mutation route on `_schedules`: `/schedule/arm`
(lines 2551-2557), `/schedule/cancel/<sid>` (lines 2562-2566),
`/schedule/cancel` (lines 1111-1116), `/delete_past_schedules`
(lines 1018-1033). -/
def applySchedMutation (schedules : List (String × Sched)) :
    SchedMutation → List (String × Sched)
  | SchedMutation.arm sid sched => schedules ++ [(sid, sched)]
  | SchedMutation.cancelId sid => schedules.filter fun p => p.1 != sid
  | SchedMutation.cancelAll => []
  | SchedMutation.deletePast now => schedules.filter fun p => !(p.2.end_ts < now)

/-- The filesystem states observable during one mutation route: the
mutation happens in memory and the route then runs `_save_sched_state`
with the mutated dict. -/
def schedMutationTrace (schedules : List (String × Sched)) (fs : FsState)
    (m : SchedMutation) : List FsState :=
  saveSchedStates fs (applySchedMutation schedules m)

/-- Process boot (app.py lines 2621-2625): `_load_sched_state()` fills
`_schedules` from `schedule.json`; the subsequent `_arm_timers_all()` call
raises `NameError` (the function does not exist in app.py) which the bare
`except` swallows, so boot reduces to the load.  The scheduler thread then
polls every 5 seconds. -/
def bootState (file : Option FileContent) : SysState :=
  { initState with schedules := (loadSchedState file []).1 }

/-! ### Theorems -/

/-- A session name is "active" when the capture thread is running and
`_current_session` holds that name. -/
def isActiveSession (s : SysState) (n : String) : Prop :=
  s.captureAlive = true ∧ s.currentSession = some n

/-- Draining a `stop` intent always leaves `_current_session` cleared. -/
theorem processIntent_stop_currentSession_none (now : Nat) (s : SysState) :
    (processIntent now s Intent.stop).currentSession = none := by
  simp only [processIntent]
  split
  · split <;> rfl
  · rfl

/-- Claim C1: at most one capture session is active at any instant under the
action processor: a drained start intent that finds the system not idle is
discarded and creates no session, and `_current_session` never switches
from one active session directly to another. -/
theorem C1_single_active_session (now : Nat) (s : SysState) (i : Intent) :
    (∀ x y, isActiveSession s x → isActiveSession s y → x = y) ∧
    (∀ p, i = Intent.start p → idleNow s = false → processIntent now s i = s) ∧
    (∀ a b, s.captureAlive = true → s.currentSession = some a →
      (processIntent now s i).currentSession = some b → b = a) := by
  refine ⟨?_, ?_, ?_⟩
  · rintro x y ⟨_, hx⟩ ⟨_, hy⟩
    rw [hx] at hy
    exact Option.some.inj hy
  · rintro p rfl hidle
    simp [processIntent, hidle]
  · intro a b halive hcur hpost
    cases i with
    | start p =>
        have hidle : idleNow s = false := by simp [idleNow, halive]
        rw [show processIntent now s (Intent.start p) = s by
          simp [processIntent, hidle]] at hpost
        rw [hcur] at hpost
        exact (Option.some.inj hpost).symm
    | stop =>
        rw [processIntent_stop_currentSession_none] at hpost
        exact absurd hpost (Option.noConfusion)

/-- A concrete busy state: a capture is running for session `a`. -/
def c1Busy : SysState :=
  { initState with captureAlive := true, currentSession := some "a" }

/-- Witness for C1: at the concrete busy state, a drained start intent is
discarded. -/
theorem C1_single_active_session_witness :
    processIntent 7 c1Busy (Intent.start (StartPayload.manual 5 "b" none)) = c1Busy :=
  (C1_single_active_session 7 c1Busy
      (Intent.start (StartPayload.manual 5 "b" none))).2.1
    (StartPayload.manual 5 "b" none) rfl (by decide)

/-- A reachable state with an active capture session and an empty action
queue, built by the `/start` route followed by one drain. -/
def c2Active : SysState :=
  runOps initState [(10, SysOp.startRoute 5 "demo" 0 0), (10, SysOp.drain)]

/-- Claim C2 counterexample: the `/stop` web handler transitions the capture
controller directly — from the reachable active state it kills the session
without enqueuing any intent, so the Action Serializer is not the only path
that stops a capture session. -/
theorem C2_stop_route_bypasses_serializer :
    c2Active.captureAlive = true ∧
    c2Active.currentSession = some "demo" ∧
    c2Active.actionQ = [] ∧
    (stopRoute c2Active).captureAlive = false ∧
    (stopRoute c2Active).currentSession = none ∧
    (stopRoute c2Active).actionQ = [] := by
  decide

/-- Claim C2 (amended): the action-queue drainer is the only path that ever
starts a capture session; every other modeled entry point (web handlers,
the one-shot duration timer, scheduler wake-ups, the legacy fire-stop
helper, the encode worker) never sets the capture thread running. -/
theorem C2_only_drainer_starts (now : Nat) (s : SysState) (op : SysOp)
    (hop : op ≠ SysOp.drain)
    (h : (sysStep now s op).captureAlive = true) :
    s.captureAlive = true := by
  cases op
  case drain => exact absurd rfl hop
  all_goals
    simp only [sysStep, startRoute, stopRoute, durationTimerFire,
      schedFireStop, schedulerTick, schedArm, encodeRoute, workerBegin,
      workerFinish, stopTimelapse] at h
  all_goals
    repeat' split at h
  all_goals simp_all

/-- Witness for C2 (amended): applied at a concrete capturing state and the
scheduler-tick entry point, both hypotheses discharged by evaluation. -/
theorem C2_only_drainer_starts_witness :
    ({ initState with captureAlive := true } : SysState).captureAlive = true :=
  C2_only_drainer_starts 3 { initState with captureAlive := true }
    SysOp.schedulerTick (by decide) (by decide)

/-- Looking up a session right after `_jobs[sess] = j` yields `j`. -/
theorem lookupJob_setJob_self (js : List (String × Job)) (k : String) (v : Job) :
    lookupJob (setJob js k v) k = some v := by
  induction js with
  | nil => simp [setJob, lookupJob]
  | cons p rest ih =>
      obtain ⟨a, b⟩ := p
      by_cases hak : a = k
      · simp [setJob, lookupJob, hak]
      · simp only [setJob, lookupJob] at ih ⊢
        simp [hak, ih]

/-- Unfolding `inFlightCount` over a cons cell. -/
theorem inFlightCount_cons (a : String) (x : Job) (t : List (String × Job)) :
    inFlightCount ((a, x) :: t) =
      (if inFlight x then 1 else 0) + inFlightCount t := by
  by_cases hx : inFlight x
  · simp [inFlightCount, List.filter_cons, hx, Nat.add_comm]
  · simp [inFlightCount, List.filter_cons, hx]

/-- Storing a job that is not in-flight never increases the number of
in-flight jobs. -/
theorem inFlightCount_setJob_le (js : List (String × Job)) (k : String)
    (v : Job) (hv : inFlight v = false) :
    inFlightCount (setJob js k v) ≤ inFlightCount js := by
  induction js with
  | nil => simp [setJob, inFlightCount, List.filter, hv]
  | cons p rest ih =>
      obtain ⟨a, b⟩ := p
      by_cases hak : a = k
      · simp only [setJob, hak, beq_self_eq_true, if_true]
        rw [inFlightCount_cons, inFlightCount_cons, hv]
        simp
      · have : (a == k) = false := by simp [hak]
        simp only [setJob, this, Bool.false_eq_true, if_false]
        rw [inFlightCount_cons, inFlightCount_cons]
        omega

/-- The schedule used by the C3 counterexample run: a window [0, 100) with
auto-encode enabled. -/
def c3Sched : Sched :=
  { start_ts := 0, end_ts := 100, interval := 10, fps := 24, sess := "",
    auto_encode := true, created_ts := 0 }

/-- Run A: a scheduled capture ends (its stop auto-enqueues an encode of
`session-50` with no status entry), then a manual encode of another session
passes the busy check, then the worker dequeues: two in-flight statuses. -/
def c3Run : SysState :=
  runOps initState
    [ (20, SysOp.schedArm "ab" c3Sched),
      (50, SysOp.schedulerTick),
      (50, SysOp.drain),
      (200, SysOp.schedulerTick),
      (200, SysOp.drain),
      (200, SysOp.encodeRoute "old" 24 true 1000),
      (200, SysOp.workerBegin 5) ]

/-- Run B: a manual encode is already `encoding` when the scheduled stop
fires; the auto-encode path enqueues a second job anyway, with no busy
rejection. -/
def c3RunB : SysState :=
  runOps initState
    [ (20, SysOp.schedArm "ab" c3Sched),
      (50, SysOp.schedulerTick),
      (50, SysOp.drain),
      (60, SysOp.encodeRoute "old" 24 true 1000),
      (60, SysOp.workerBegin 5),
      (200, SysOp.schedulerTick),
      (200, SysOp.drain) ]

/-- Claim C3 counterexample: after run A two jobs are simultaneously
in-flight (`old` queued and `session-50` encoding), and in run B the
scheduler's auto-encode enqueue issued while a job was `encoding` was not
rejected with a busy error — it put a second job on the encode queue and
recorded no status for it. -/
theorem C3_two_jobs_in_flight :
    (inFlightCount c3Run.jobs = 2 ∧
     lookupJob c3Run.jobs "old" = some (Job.mk JobStatus.queued 0 none) ∧
     lookupJob c3Run.jobs "session-50" =
       some (Job.mk JobStatus.encoding 0 none)) ∧
    (anyEncodingActive c3RunB.jobs = true ∧
     c3RunB.encodeQ = [("session-50", 24)] ∧
     lookupJob c3RunB.jobs "session-50" = none) := by
  decide

/-- Claim C3 (amended): the busy rejection holds for the manual `/encode`
route only — an enqueue through it while any job is queued or encoding is
rejected with a busy error, leaves the encode queue and worker untouched,
and creates no additional in-flight job; the scheduler's auto-encode path
performs no such check (see the counterexample). -/
theorem C3_manual_enqueue_busy (s : SysState) (sess : String)
    (fps : Nat) (dirExists : Bool) (freeMB : Nat)
    (h : anyEncodingActive s.jobs = true) :
    let s2 := encodeRoute s sess fps dirExists freeMB
    s2.encodeQ = s.encodeQ ∧ s2.working = s.working ∧
    lookupJob s2.jobs sess = some (Job.mk JobStatus.error 0 (some "busy")) ∧
    inFlightCount s2.jobs ≤ inFlightCount s.jobs := by
  intro s2
  have hs2 : s2 = { s with jobs := setJob s.jobs sess (Job.mk JobStatus.error 0 (some "busy")) } := by
    simp [s2, encodeRoute, h]
  refine ⟨by rw [hs2], by rw [hs2], ?_, ?_⟩
  · rw [hs2]
    exact lookupJob_setJob_self s.jobs sess _
  · rw [hs2]
    exact inFlightCount_setJob_le s.jobs sess _ (by decide)

/-- A concrete state with an in-flight encode job. -/
def c3BusyState : SysState :=
  { initState with jobs := [("x", Job.mk JobStatus.encoding 37 none)] }

/-- Witness for C3 (amended) at a concrete busy state. -/
theorem C3_manual_enqueue_busy_witness :
    let s2 := encodeRoute c3BusyState "y" 24 true 1000
    s2.encodeQ = c3BusyState.encodeQ ∧ s2.working = c3BusyState.working ∧
    lookupJob s2.jobs "y" = some (Job.mk JobStatus.error 0 (some "busy")) ∧
    inFlightCount s2.jobs ≤ inFlightCount c3BusyState.jobs :=
  C3_manual_enqueue_busy c3BusyState "y" 24 true 1000 (by decide)

/-- Claim C4 (code bug): the `/start` route performs no storage pre-flight
check at all — with 0 MB free (far below the 500 MB threshold of
`_enough_space`, whose own comment says "before we start or encode") a
start request is still enqueued and the drained intent launches a capture
session; nothing signals InsufficientStorage. -/
theorem C4_start_skips_storage_check :
    enoughSpace 0 500 = false ∧
    (runOps initState
        [(10, SysOp.startRoute 5 "demo" 0 0), (10, SysOp.drain)]).captureAlive
      = true ∧
    (runOps initState
        [(10, SysOp.startRoute 5 "demo" 0 0), (10, SysOp.drain)]).currentSession
      = some "demo" := by
  decide

/-- A schedule used by several concrete witnesses: window [40, 700). -/
def sampleSched : Sched :=
  { start_ts := 40, end_ts := 700, interval := 5, fps := 24, sess := "",
    auto_encode := false, created_ts := 0 }

/-- The scheduler wake-up never mutates the schedule store. -/
theorem schedulerTick_schedules (now : Nat) (s : SysState) :
    (schedulerTick now s).schedules = s.schedules := by
  simp only [schedulerTick]
  repeat' split
  all_goals rfl

/-- The intents fired by a wake-up at the freshly booted state are exactly
those demanded by the first schedule window containing `now`. -/
theorem schedulerTick_bootState_actionQ (now : Nat)
    (scheds : List (String × Sched)) :
    (schedulerTick now (bootState (some (FileContent.complete scheds)))).actionQ =
      (match findActiveSchedule now scheds with
       | some (sid, _) => [Intent.start (StartPayload.scheduled sid)]
       | none => []) := by
  cases hfind : findActiveSchedule now scheds with
  | none =>
      simp [schedulerTick, bootState, loadSchedState, initState, pyTruthy,
        idleNow, anyEncodingActive, hfind]
  | some p =>
      obtain ⟨sid2, sc⟩ := p
      simp [schedulerTick, bootState, loadSchedState, initState, pyTruthy,
        idleNow, anyEncodingActive, hfind]

/-- Claim C5: reloading a persisted schedule after a restart produces the
same start firing as running continuously through its window: boot recovers
exactly the persisted schedules; a window containing `now` fires a start
intent whose drain activates a session; a future window is kept and fires
once its window is entered; a window whose end has passed never fires a
start; and a wake-up at any idle continuously-running state with the same
schedules enqueues exactly the same intents as the post-boot wake-up. -/
theorem C5_reload_same_firing (scheds : List (String × Sched)) (sid : String)
    (sched : Sched) (now : Nat) :
    (bootState (some (FileContent.complete scheds)) =
      { initState with schedules := scheds }) ∧
    (sched.start_ts ≤ now → now < sched.end_ts →
      (schedulerTick now
          (bootState (some (FileContent.complete [(sid, sched)])))).actionQ =
        [Intent.start (StartPayload.scheduled sid)] ∧
      (processIntent now
          (bootState (some (FileContent.complete [(sid, sched)])))
          (Intent.start (StartPayload.scheduled sid))).captureAlive = true) ∧
    (now < sched.start_ts →
      (schedulerTick now
          (bootState (some (FileContent.complete [(sid, sched)])))).actionQ = [] ∧
      (schedulerTick now
          (bootState (some (FileContent.complete [(sid, sched)])))).schedules =
        [(sid, sched)] ∧
      (∀ t, sched.start_ts ≤ t → t < sched.end_ts →
        (schedulerTick t
            (bootState (some (FileContent.complete [(sid, sched)])))).actionQ =
          [Intent.start (StartPayload.scheduled sid)])) ∧
    (∀ t, sched.end_ts ≤ t →
      (schedulerTick t
          (bootState (some (FileContent.complete [(sid, sched)])))).actionQ = []) ∧
    (∀ s : SysState, s.schedules = scheds → s.currentSession = none →
      idleNow s = true →
      (schedulerTick now s).actionQ =
        s.actionQ ++
          (schedulerTick now
              (bootState (some (FileContent.complete scheds)))).actionQ) := by
  have hfire : ∀ t, sched.start_ts ≤ t → t < sched.end_ts →
      findActiveSchedule t [(sid, sched)] = some (sid, sched) := by
    intro t h1 h2
    simp [findActiveSchedule, List.find?, h1, h2]
  refine ⟨rfl, ?_, ?_, ?_, ?_⟩
  · intro h1 h2
    refine ⟨?_, ?_⟩
    · rw [schedulerTick_bootState_actionQ, hfire now h1 h2]
    · simp [processIntent, bootState, loadSchedState, initState, idleNow,
        anyEncodingActive, startCapture, schedGet]
  · intro h3
    have hd : decide (sched.start_ts ≤ now) = false := by
      simp
      omega
    have hnone : findActiveSchedule now [(sid, sched)] = none := by
      simp [findActiveSchedule, List.find?, hd]
    refine ⟨?_, ?_, ?_⟩
    · rw [schedulerTick_bootState_actionQ, hnone]
    · rw [schedulerTick_schedules]
      rfl
    · intro t h1 h2
      rw [schedulerTick_bootState_actionQ, hfire t h1 h2]
  · intro t hend
    have hd : decide (t < sched.end_ts) = false := by
      simp
      omega
    have hnone : findActiveSchedule t [(sid, sched)] = none := by
      simp [findActiveSchedule, List.find?, hd]
    rw [schedulerTick_bootState_actionQ, hnone]
  · intro s hs hcur hidle
    rw [schedulerTick_bootState_actionQ]
    cases hfind : findActiveSchedule now scheds with
    | none =>
        simp [schedulerTick, pyTruthy, hcur, hidle, hs, hfind]
    | some p =>
        obtain ⟨sid2, sc⟩ := p
        simp [schedulerTick, pyTruthy, hcur, hidle, hs, hfind]

/-- Witness for C5: for the persisted window [40, 700), a boot reload at
t=100 fires the start whose drain activates a session; at t=10 the window
is kept and fires at t=100; at t=800 nothing fires; and the post-boot state
itself fires the same as the boot firing. -/
theorem C5_reload_same_firing_witness :
    ((schedulerTick 100
        (bootState (some (FileContent.complete [("ab", sampleSched)])))).actionQ =
      [Intent.start (StartPayload.scheduled "ab")] ∧
     (processIntent 100
        (bootState (some (FileContent.complete [("ab", sampleSched)])))
        (Intent.start (StartPayload.scheduled "ab"))).captureAlive = true) ∧
    ((schedulerTick 10
        (bootState (some (FileContent.complete [("ab", sampleSched)])))).actionQ = []) ∧
    ((schedulerTick 800
        (bootState (some (FileContent.complete [("ab", sampleSched)])))).actionQ = []) :=
  ⟨(C5_reload_same_firing [("ab", sampleSched)] "ab" sampleSched 100).2.1
      (by decide) (by decide),
   ((C5_reload_same_firing [("ab", sampleSched)] "ab" sampleSched 10).2.2.1
      (by decide)).1,
   (C5_reload_same_firing [("ab", sampleSched)] "ab" sampleSched 800).2.2.2.1
      800 (by decide)⟩

/-- Claim C6: a schedule mutation persists by writing the whole record to a
temporary file and atomically renaming it over the store; at every
filesystem state observable during the save — hence after a crash at any
point — a load returns either the complete old record or the complete new
record, never a partially written mix. -/
theorem C6_atomic_persist (schedules cur : List (String × Sched))
    (fs : FsState) (m : SchedMutation) (st : FsState)
    (h : st ∈ schedMutationTrace schedules fs m) :
    loadSchedState st.schedFile cur = loadSchedState fs.schedFile cur ∨
    loadSchedState st.schedFile cur = (applySchedMutation schedules m, true) := by
  simp only [schedMutationTrace, saveSchedStates, List.mem_cons,
    List.mem_singleton, List.not_mem_nil, or_false] at h
  rcases h with h | h | h | h <;> subst h
  · left; rfl
  · left; rfl
  · left; rfl
  · right; simp [loadSchedState]

/-- Witness for C6: crash captured after the tmp file was only partially
written — the store still loads as the old (absent) record. -/
theorem C6_atomic_persist_witness :
    loadSchedState (FsState.mk none (some FileContent.torn)).schedFile [] =
        loadSchedState (FsState.mk none none).schedFile [] ∨
    loadSchedState (FsState.mk none (some FileContent.torn)).schedFile [] =
      (applySchedMutation [] (SchedMutation.arm "ab" sampleSched), true) :=
  C6_atomic_persist [] [] (FsState.mk none none)
    (SchedMutation.arm "ab" sampleSched)
    (FsState.mk none (some FileContent.torn)) (by decide)

/-- Claim C7 counterexample: at an idle state, with the camera binary
present but no shared live process running and a spawn recorded within the
last second, `/live.mjpg` aborts with 429 (rate-limited) rather than
returning a stream handle — so openStream does not succeed in every case
in which the lease reports idle. -/
theorem C7_idle_but_rate_limited :
    idleNow initState = true ∧
    (liveMjpg initState true 10 1 (LiveState.mk 10 false 1)).1 =
      LiveResult.rateLimited := by
  decide

/-- Claim C7 (amended): openStream fails with Busy exactly when the lease is
not idle (in particular whenever a capture session is running); when idle
it returns a stream handle if the shared camera process is already running,
or if a fresh spawn passes the once-per-period rate limit, and it aborts
rate-limited (not Busy, not a stream) when a fresh spawn comes too soon
after the previous one. -/
theorem C7_openStream_busy_iff (sys : SysState) (bin : Bool)
    (now period : Nat) (live : LiveState) :
    (idleNow sys = false →
      (liveMjpg sys bin now period live).1 = LiveResult.busy) ∧
    (sys.captureAlive = true →
      (liveMjpg sys bin now period live).1 = LiveResult.busy) ∧
    ((liveMjpg sys bin now period live).1 = LiveResult.busy →
      idleNow sys = false) ∧
    (idleNow sys = true → bin = true → live.procRunning = true →
      (liveMjpg sys bin now period live).1 = LiveResult.stream) ∧
    (idleNow sys = true → bin = true → live.procRunning = false →
      period ≤ now - live.lastLiveSpawn →
      (liveMjpg sys bin now period live).1 = LiveResult.stream) ∧
    (idleNow sys = true → bin = true → live.procRunning = false →
      now - live.lastLiveSpawn < period →
      (liveMjpg sys bin now period live).1 = LiveResult.rateLimited) := by
  refine ⟨?_, ?_, ?_, ?_, ?_, ?_⟩
  · intro h
    simp [liveMjpg, h]
  · intro h
    have hni : idleNow sys = false := by simp [idleNow, h]
    simp [liveMjpg, hni]
  · intro hb
    by_contra hni
    rw [Bool.not_eq_false] at hni
    cases hbin : bin <;> cases hpr : live.procRunning <;>
      simp only [liveMjpg, hni, hbin, hpr, canSpawnLive, Bool.not_true,
        Bool.false_eq_true, if_false, if_true, Bool.not_false] at hb <;>
      first
        | simp at hb
        | (split at hb <;> simp_all)
  · intro hi hbin hpr
    simp [liveMjpg, hi, hbin, hpr]
  · intro hi hbin hpr hle
    have hd : ¬(now - live.lastLiveSpawn < period) := Nat.not_lt.mpr hle
    simp [liveMjpg, hi, hbin, hpr, canSpawnLive, hd]
  · intro hi hbin hpr hlt
    simp [liveMjpg, hi, hbin, hpr, canSpawnLive, hlt]

/-- Witness for C7 (amended): Busy while a capture session is running;
a stream handle at an idle state with a stale spawn stamp. -/
theorem C7_openStream_busy_iff_witness :
    (liveMjpg { initState with captureAlive := true } true 10 1
        (LiveState.mk 0 false 0)).1 = LiveResult.busy ∧
    (liveMjpg initState true 10 1 (LiveState.mk 0 false 0)).1 =
      LiveResult.stream :=
  ⟨(C7_openStream_busy_iff { initState with captureAlive := true } true 10 1
      (LiveState.mk 0 false 0)).2.1 (by decide),
   (C7_openStream_busy_iff initState true 10 1
      (LiveState.mk 0 false 0)).2.2.2.2.1 (by decide) rfl rfl (by decide)⟩

/-- Claim C8 counterexample: a `/live.mjpg` request spawns its camera
process, and when that process exits within the first second the generator
loop just terminates — zero fallback respawns are attempted, not exactly
one. -/
theorem C8_no_fallback_respawn :
    (liveMjpg initState true 100 1 (LiveState.mk 0 false 0)).2.spawnCount = 1 ∧
    genLoop [LiveEvent.procExit] = (0, 0) ∧
    ¬ (genLoop [LiveEvent.procExit]).2 = 1 := by
  decide

/-- Claim C8 (amended): no fallback respawn is attempted anywhere in the
live streamer: one `/live.mjpg` request spawns at most one camera process,
and the streaming loop never spawns — whenever the process has exited (at
any age, including within its first second) the loop ends with zero
respawns. -/
theorem C8_at_most_one_spawn (sys : SysState) (bin : Bool) (now period : Nat)
    (live : LiveState) (evs : List LiveEvent) :
    (liveMjpg sys bin now period live).2.spawnCount ≤ live.spawnCount + 1 ∧
    (genLoop evs).2 = 0 ∧
    genLoop (LiveEvent.procExit :: evs) = (0, 0) := by
  refine ⟨?_, ?_, rfl⟩
  · simp only [liveMjpg, canSpawnLive]
    repeat' split
    all_goals simp
  · induction evs with
    | nil => rfl
    | cons e rest ih => cases e <;> simp [genLoop, ih]

/-- At most 99 is ever published as progress while a job is encoding. -/
theorem progressUpdate_le (totalFrames p : Nat) (line : String)
    (hp : p ≤ 99) : progressUpdate totalFrames p line ≤ 99 := by
  unfold progressUpdate
  cases frameNumOfLine line with
  | none => simpa using hp
  | some n =>
      simp only []
      omega

/-- Every value in the progress trace is at most 99. -/
theorem progressTraceAux_le (totalFrames : Nat) (lines : List String) :
    ∀ p, p ≤ 99 → ∀ q ∈ progressTraceAux totalFrames p lines, q ≤ 99 := by
  induction lines with
  | nil => simp [progressTraceAux]
  | cons line rest ih =>
      intro p hp q hq
      simp only [progressTraceAux, List.mem_cons] at hq
      rcases hq with rfl | hq
      · exact progressUpdate_le _ _ _ hp
      · exact ih _ (progressUpdate_le _ _ _ hp) _ hq

/-- Claim C9 counterexample: with exit code 0 but a missing output file the
job finalizes to `error/0`, so "done exactly when the encoder exits
successfully" fails at (rc = 0, output absent). -/
theorem C9_done_needs_output_file :
    (finalizeJob 0 false).status = JobStatus.error ∧
    (finalizeJob 0 false).progress = 0 ∧
    ¬ ((finalizeJob 0 false).status = JobStatus.done ↔ (0 : Int) = 0) := by
  decide

/-- Claim C9 (amended): every progress value published while the job is
encoding is an integer in 0–99; the job finalizes to done/100 exactly when
the encoder exits with code 0 and the output file exists, and to error/0
otherwise (nonzero exit, missing output) as well as on an exception. -/
theorem C9_progress_and_finalize (totalFrames : Nat) (lines : List String)
    (rc : Int) (outExists exc : Bool) :
    (∀ p ∈ progressTrace totalFrames lines, p ≤ 99) ∧
    ((finalizeJob rc outExists).status = JobStatus.done ↔
      rc = 0 ∧ outExists = true) ∧
    ((finalizeJob rc outExists).status = JobStatus.done →
      (finalizeJob rc outExists).progress = 100) ∧
    (rc ≠ 0 ∨ outExists = false →
      finalizeJob rc outExists = Job.mk JobStatus.error 0 none) ∧
    (exc = true →
      encodeTaskResult exc rc outExists = Job.mk JobStatus.error 0 none) := by
  refine ⟨?_, ?_, ?_, ?_, ?_⟩
  · intro p hp
    simp only [progressTrace, List.mem_cons] at hp
    rcases hp with rfl | hp
    · omega
    · exact progressTraceAux_le totalFrames lines 0 (by omega) p hp
  · unfold finalizeJob
    split
    next hcond =>
      simp only [Bool.and_eq_true, beq_iff_eq] at hcond
      simp [hcond]
    next hcond =>
      simp only [Bool.and_eq_true, beq_iff_eq, not_and] at hcond
      constructor
      · intro habs
        exact absurd habs (by simp)
      · intro hc
        exact absurd hc.2 (hcond hc.1)
  · intro hdone
    unfold finalizeJob at hdone ⊢
    split at hdone
    · split
      · rfl
      · simp_all
    · simp at hdone
  · intro hcase
    unfold finalizeJob
    split
    next hcond =>
      simp only [Bool.and_eq_true, beq_iff_eq] at hcond
      rcases hcase with hc | hc
      · exact absurd hcond.1 hc
      · rw [hcond.2] at hc
        exact absurd hc (by simp)
    next hcond => rfl
  · intro hexc
    simp [encodeTaskResult, hexc]

/-- Witness for C9 (amended) at concrete inputs: the initial progress value
is within range, and a nonzero exit finalizes to error/0. -/
theorem C9_progress_and_finalize_witness :
    (0 : Nat) ≤ 99 ∧
    finalizeJob 2 true = Job.mk JobStatus.error 0 none :=
  ⟨(C9_progress_and_finalize 5 [] 2 true false).1 0 (by decide),
   (C9_progress_and_finalize 5 [] 2 true false).2.2.2.1
     (Or.inl (by decide))⟩

/-- Claim C10: when the worker dequeues an encode job for a session with
zero frame files it immediately records error/0 for that session and never
invokes the external encoder for the task. -/
theorem C10_zero_frames_no_encoder (s : SysState) (sess : String) (fps : Nat)
    (rest : List (String × Nat)) (hw : s.working = none)
    (hq : s.encodeQ = (sess, fps) :: rest) :
    (workerBegin s 0).2 = false ∧
    lookupJob (workerBegin s 0).1.jobs sess =
      some (Job.mk JobStatus.error 0 none) ∧
    (workerBegin s 0).1.working = none ∧
    (workerBegin s 0).1.encodeQ = rest := by
  simp only [workerBegin, hw, hq]
  simp [lookupJob_setJob_self, hw]

/-- Witness for C10 at a concrete queue with one pending job. -/
theorem C10_zero_frames_no_encoder_witness :
    (workerBegin { initState with encodeQ := [("s1", 24)] } 0).2 = false ∧
    lookupJob (workerBegin { initState with encodeQ := [("s1", 24)] } 0).1.jobs
        "s1" = some (Job.mk JobStatus.error 0 none) ∧
    (workerBegin { initState with encodeQ := [("s1", 24)] } 0).1.working = none ∧
    (workerBegin { initState with encodeQ := [("s1", 24)] } 0).1.encodeQ = [] :=
  C10_zero_frames_no_encoder { initState with encodeQ := [("s1", 24)] }
    "s1" 24 [] rfl rfl

end MouseEye
